import Mathlib

/-!
Shallow embedding of the BlueNRG low-level SPI driver
(`src/zinc/drivers/bluenrg.rs`).

The driver talks to the peripheral through two injected capabilities:
a full-duplex byte-exchange primitive (`Spi::transfer`) and a digital
output pin (`Gpio::set_low` / `Gpio::set_high`).  We model the pair of
capabilities as an explicit `BusState`:

* `responses` — the stream of bytes the peripheral will answer with,
  one byte per `transfer` call, consumed in order (an exhausted stream
  answers 0);
* `sent`      — the trace of bytes the driver has written to the bus,
  oldest first;
* `gpio`      — the trace of levels driven on the active/select line,
  oldest first (`false` = low/selected, `true` = high/deselected).

Bytes are `Nat`s reduced mod 256 where the Rust type is `u8`.
Fallible operations return `Except SpiError`.
-/

/-- The two SPI opcodes (`enum SpiControl`), `SpiWrite = 0x0A`. -/
def SpiWrite : Nat := 0x0A

/-- `SpiRead = 0x0B`. -/
def SpiRead : Nat := 0x0B

/-- Spi error codes (`enum SpiError`). -/
inductive SpiError where
  /-- Device is sleeping. -/
  | SpiSleeping : SpiError
  /-- Status is unknown. -/
  | SpiUnknown : Nat → SpiError
  /-- Given buffer is too large. -/
  | SpiBufferSize : Nat → SpiError
deriving DecidableEq, Repr

/-- The state of the two injected bus capabilities. -/
structure BusState where
  /-- Bytes the peripheral will answer with, in order. -/
  responses : List Nat
  /-- Bytes written to the bus so far, oldest first. -/
  sent : List Nat
  /-- Levels driven on the active/select line, oldest first. -/
  gpio : List Bool
deriving DecidableEq, Repr

/-- `Spi::transfer(out) -> in`: exchange one byte, blocking.  The answered
byte is the head of the response stream (0 when exhausted), reduced mod 256
since the Rust value is a `u8`; the written byte is recorded in the trace. -/
def transfer (out : Nat) (s : BusState) : Nat × BusState :=
  (s.responses.headD 0 % 256,
   { responses := s.responses.tail,
     sent := s.sent ++ [out % 256],
     gpio := s.gpio })

/-- `Gpio::set_low`: drive the active/select line low (select). -/
def set_low (s : BusState) : BusState :=
  { s with gpio := s.gpio ++ [false] }

/-- `Gpio::set_high`: drive the active/select line high (deselect). -/
def set_high (s : BusState) : BusState :=
  { s with gpio := s.gpio ++ [true] }

/-- Big-endian assembly of a `u16` from two bytes:
`(hi as u16 << 8) | (lo as u16)` as written in the source. -/
def decode_be (hi lo : Nat) : Nat := (hi <<< 8) ||| lo

/-- `BlueNrg::check`: drive select low, exchange the 5-byte header
(read opcode then four zero fillers), drive select high, then classify
the status byte and decode the capacity pair. -/
def check (s : BusState) : Except SpiError (Nat × Nat) × BusState :=
  let s := set_low s
  let (status, s) := transfer SpiRead s
  let (w0, s) := transfer 0 s
  let (w1, s) := transfer 0 s
  let (r0, s) := transfer 0 s
  let (r1, s) := transfer 0 s
  let s := set_high s
  if status = 0x02 then
    (Except.ok (decode_be w0 w1, decode_be r0 r1), s)
  else if status = 0x00 ∨ status = 0xFF then
    (Except.error SpiError.SpiSleeping, s)
  else
    (Except.error (SpiError.SpiUnknown status), s)

/-- `BlueNrg::wakeup`: poll `check` until it stops answering
`SpiSleeping` or the retry budget runs out; the last observed result is
returned either way. -/
def wakeup : Nat → BusState → Except SpiError (Nat × Nat) × BusState
  | 0, s => check s
  | Nat.succ n, s =>
    match check s with
    | (Except.error SpiError.SpiSleeping, s') => wakeup n s'
    | r => r

/-- The payload loop of `receive`: read `n` bytes from the bus
(`*b = self.spi.transfer(0)`), returning them in transfer order. -/
def transferN : Nat → BusState → List Nat × BusState
  | 0, s => ([], s)
  | Nat.succ n, s =>
    let (b, s) := transfer 0 s
    let (bs, s') := transferN n s
    (b :: bs, s')

/-- `BlueNrg::receive`: exchange the 5-byte header with the read opcode,
keep the status and the read-capacity bytes, then either fail (non-ready
status, or capacity below the buffer length as `u16`) or fill the buffer
from the bus.  The `Ok` value is the buffer's new contents. -/
def receive (buf : List Nat) (s : BusState) : Except SpiError (List Nat) × BusState :=
  let s := set_low s
  let (status, s) := transfer SpiRead s
  let (_, s) := transfer 0 s
  let (_, s) := transfer 0 s
  let (r0, s) := transfer 0 s
  let (r1, s) := transfer 0 s
  let size := decode_be r0 r1
  if status ≠ 0x02 then
    (Except.error (SpiError.SpiUnknown status), set_high s)
  else if size < buf.length % 65536 then
    (Except.error (SpiError.SpiBufferSize size), set_high s)
  else
    let (out, s) := transferN buf.length s
    (Except.ok out, set_high s)

/-- The payload loop of `send`: write each buffer byte to the bus in
order (`self.spi.transfer(*b)`), discarding the answered bytes. -/
def sendAll (buf : List Nat) (s : BusState) : BusState :=
  buf.foldl (fun st b => (transfer b st).2) s

/-- `BlueNrg::send`: exchange the 5-byte header with the write opcode,
keep the status and the write-capacity bytes, then either fail (non-ready
status, or capacity below the buffer length as `u16`) or stream the
buffer to the bus. -/
def send (buf : List Nat) (s : BusState) : Except SpiError Unit × BusState :=
  let s := set_low s
  let (status, s) := transfer SpiWrite s
  let (w0, s) := transfer 0 s
  let (w1, s) := transfer 0 s
  let (_, s) := transfer 0 s
  let (_, s) := transfer 0 s
  let size := decode_be w0 w1
  if status ≠ 0x02 then
    (Except.error (SpiError.SpiUnknown status), set_high s)
  else if size < buf.length % 65536 then
    (Except.error (SpiError.SpiBufferSize size), set_high s)
  else
    (Except.ok (), set_high (sendAll buf s))

/-- The byte (as `u8`) answered by the `(i+1)`-th transfer run against a
response stream `l`. -/
def byteAt (l : List Nat) (i : Nat) : Nat := (l.drop i).headD 0 % 256

/-- The pure outcome of one `check` handshake over a response stream. -/
def checkResult (l : List Nat) : Except SpiError (Nat × Nat) :=
  let status := byteAt l 0
  if status = 0x02 then
    Except.ok (decode_be (byteAt l 1) (byteAt l 2), decode_be (byteAt l 3) (byteAt l 4))
  else if status = 0x00 ∨ status = 0xFF then
    Except.error SpiError.SpiSleeping
  else
    Except.error (SpiError.SpiUnknown status)

/-! ### Anatomy lemmas -/

lemma tail_eq_drop_one {α : Type} (l : List α) : l.tail = l.drop 1 := by
  cases l <;> rfl

lemma headD_tail_drop (l : List Nat) (i : Nat) :
    ((l.drop i).tail.headD 0) = (l.drop (i + 1)).headD 0 := by
  rw [tail_eq_drop_one, List.drop_drop]

/-- One `check` call, fully described: the result is `checkResult` of the
response stream, five responses are consumed, the five header bytes are
written, and the select line goes low then high. -/
lemma check_eq (s : BusState) :
    check s =
      (checkResult s.responses,
       { responses := s.responses.drop 5,
         sent := s.sent ++ [SpiRead, 0, 0, 0, 0],
         gpio := s.gpio ++ [false, true] }) := by
  simp only [check, checkResult, transfer, set_low, set_high, byteAt,
    tail_eq_drop_one, List.drop_drop, List.drop_zero]
  norm_num [List.append_assoc, SpiRead]
  split_ifs <;> rfl

lemma byteAt_lt (l : List Nat) (i : Nat) : byteAt l i < 256 :=
  Nat.mod_lt _ (by norm_num)

lemma byteAt_drop (l : List Nat) (i j : Nat) :
    byteAt (l.drop i) j = byteAt l (i + j) := by
  simp [byteAt, List.drop_drop, Nat.add_comm]

/-- For bytes, the source's `(hi as u16 << 8) | (lo as u16)` is plain
big-endian place value. -/
lemma decode_be_eq (hi lo : Nat) (hlo : lo < 256) :
    decode_be hi lo = hi * 256 + lo := by
  have h2 : lo < 2 ^ 8 := lt_of_lt_of_le hlo (by norm_num)
  have h3 := Nat.mul_add_lt_is_or h2 hi
  rw [Nat.mul_comm] at h3
  simp only [decode_be, Nat.shiftLeft_eq]
  rw [← h3]

lemma decode_be_lt (hi lo : Nat) (hhi : hi < 256) (hlo : lo < 256) :
    decode_be hi lo < 65536 := by
  rw [decode_be_eq hi lo hlo]
  omega

/-- The payload loop of `receive`, fully described: the answered bytes in
transfer order, `n` responses consumed, `n` zero bytes written, the select
line untouched. -/
lemma transferN_eq (n : Nat) (s : BusState) :
    transferN n s =
      ((List.range n).map (fun i => byteAt s.responses i),
       { responses := s.responses.drop n,
         sent := s.sent ++ List.replicate n 0,
         gpio := s.gpio }) := by
  induction n generalizing s with
  | zero => simp [transferN]
  | succ n ih =>
    simp only [transferN, transfer, ih]
    simp only [List.range_succ_eq_map, byteAt, tail_eq_drop_one, List.drop_drop,
      List.drop_zero, List.replicate_succ, Function.comp_def, List.map_cons,
      List.map_map, List.append_assoc, List.cons_append, List.nil_append]
    simp [Nat.succ_eq_add_one, Nat.add_comm]

/-- The payload loop of `send`, fully described: the buffer's bytes are
written in order, `n` responses consumed, the select line untouched. -/
lemma sendAll_eq (buf : List Nat) (s : BusState) :
    sendAll buf s =
      { responses := s.responses.drop buf.length,
        sent := s.sent ++ buf.map (· % 256),
        gpio := s.gpio } := by
  induction buf generalizing s with
  | nil => simp [sendAll]
  | cons b bs ih =>
    have h0 : sendAll (b :: bs) s = sendAll bs (transfer b s).2 := rfl
    rw [h0, ih]
    simp only [transfer, tail_eq_drop_one, List.drop_drop, List.append_assoc,
      List.map_cons, List.cons_append, List.nil_append]
    simp [Nat.add_comm]

/-- One `receive` call, fully described by the response stream, the
status byte and the decoded read capacity. -/
lemma receive_eq (buf : List Nat) (s : BusState) :
    receive buf s =
      (if byteAt s.responses 0 = 2 then
         if decode_be (byteAt s.responses 3) (byteAt s.responses 4)
              < buf.length % 65536 then
           (Except.error (SpiError.SpiBufferSize
              (decode_be (byteAt s.responses 3) (byteAt s.responses 4))),
            { responses := s.responses.drop 5,
              sent := s.sent ++ [SpiRead, 0, 0, 0, 0],
              gpio := s.gpio ++ [false, true] })
         else
           (Except.ok ((List.range buf.length).map
              (fun i => byteAt s.responses (5 + i))),
            { responses := s.responses.drop (5 + buf.length),
              sent := s.sent ++ [SpiRead, 0, 0, 0, 0]
                        ++ List.replicate buf.length 0,
              gpio := s.gpio ++ [false, true] })
       else
         (Except.error (SpiError.SpiUnknown (byteAt s.responses 0)),
          { responses := s.responses.drop 5,
            sent := s.sent ++ [SpiRead, 0, 0, 0, 0],
            gpio := s.gpio ++ [false, true] })) := by
  simp only [receive, transfer, set_low, set_high, tail_eq_drop_one,
    List.drop_drop, List.drop_zero, byteAt, transferN_eq]
  norm_num [List.append_assoc, SpiRead]

/-- `receive` on a non-ready status: `SpiUnknown` carrying the status byte,
only the 5 header bytes exchanged, the select line released. -/
lemma receive_not_ready (buf : List Nat) (s : BusState)
    (hst : byteAt s.responses 0 ≠ 2) :
    receive buf s =
      (Except.error (SpiError.SpiUnknown (byteAt s.responses 0)),
       { responses := s.responses.drop 5,
         sent := s.sent ++ [SpiRead, 0, 0, 0, 0],
         gpio := s.gpio ++ [false, true] }) := by
  rw [receive_eq, if_neg hst]

/-- `receive` on a ready status whose read capacity is below the (`u16`)
buffer length: `SpiBufferSize` carrying the capacity, only the 5 header
bytes exchanged, the select line released. -/
lemma receive_size_small (buf : List Nat) (s : BusState)
    (hst : byteAt s.responses 0 = 2)
    (hsz : decode_be (byteAt s.responses 3) (byteAt s.responses 4)
             < buf.length % 65536) :
    receive buf s =
      (Except.error (SpiError.SpiBufferSize
         (decode_be (byteAt s.responses 3) (byteAt s.responses 4))),
       { responses := s.responses.drop 5,
         sent := s.sent ++ [SpiRead, 0, 0, 0, 0],
         gpio := s.gpio ++ [false, true] }) := by
  rw [receive_eq, if_pos hst, if_pos hsz]

/-- `receive` on a ready status with sufficient read capacity: succeeds,
the buffer receives the next `buf.length` answered bytes in transfer
order, the select line released at the end. -/
lemma receive_ok (buf : List Nat) (s : BusState)
    (hst : byteAt s.responses 0 = 2)
    (hsz : ¬ decode_be (byteAt s.responses 3) (byteAt s.responses 4)
             < buf.length % 65536) :
    receive buf s =
      (Except.ok ((List.range buf.length).map (fun i => byteAt s.responses (5 + i))),
       { responses := s.responses.drop (5 + buf.length),
         sent := s.sent ++ [SpiRead, 0, 0, 0, 0] ++ List.replicate buf.length 0,
         gpio := s.gpio ++ [false, true] }) := by
  rw [receive_eq, if_pos hst, if_neg hsz]

/-- One `send` call, fully described by the response stream, the status
byte and the decoded write capacity. -/
lemma send_eq (buf : List Nat) (s : BusState) :
    send buf s =
      (if byteAt s.responses 0 = 2 then
         if decode_be (byteAt s.responses 1) (byteAt s.responses 2)
              < buf.length % 65536 then
           (Except.error (SpiError.SpiBufferSize
              (decode_be (byteAt s.responses 1) (byteAt s.responses 2))),
            { responses := s.responses.drop 5,
              sent := s.sent ++ [SpiWrite, 0, 0, 0, 0],
              gpio := s.gpio ++ [false, true] })
         else
           (Except.ok (),
            { responses := s.responses.drop (5 + buf.length),
              sent := s.sent ++ [SpiWrite, 0, 0, 0, 0] ++ buf.map (· % 256),
              gpio := s.gpio ++ [false, true] })
       else
         (Except.error (SpiError.SpiUnknown (byteAt s.responses 0)),
          { responses := s.responses.drop 5,
            sent := s.sent ++ [SpiWrite, 0, 0, 0, 0],
            gpio := s.gpio ++ [false, true] })) := by
  simp only [send, transfer, set_low, set_high, tail_eq_drop_one,
    List.drop_drop, List.drop_zero, byteAt, sendAll_eq]
  norm_num [List.append_assoc, SpiWrite]

/-- `send` on a non-ready status: `SpiUnknown` carrying the status byte,
only the 5 header bytes exchanged, the select line released. -/
lemma send_not_ready (buf : List Nat) (s : BusState)
    (hst : byteAt s.responses 0 ≠ 2) :
    send buf s =
      (Except.error (SpiError.SpiUnknown (byteAt s.responses 0)),
       { responses := s.responses.drop 5,
         sent := s.sent ++ [SpiWrite, 0, 0, 0, 0],
         gpio := s.gpio ++ [false, true] }) := by
  rw [send_eq, if_neg hst]

/-- `send` on a ready status whose write capacity is below the (`u16`)
buffer length: `SpiBufferSize` carrying the capacity, only the 5 header
bytes exchanged, the select line released. -/
lemma send_size_small (buf : List Nat) (s : BusState)
    (hst : byteAt s.responses 0 = 2)
    (hsz : decode_be (byteAt s.responses 1) (byteAt s.responses 2)
             < buf.length % 65536) :
    send buf s =
      (Except.error (SpiError.SpiBufferSize
         (decode_be (byteAt s.responses 1) (byteAt s.responses 2))),
       { responses := s.responses.drop 5,
         sent := s.sent ++ [SpiWrite, 0, 0, 0, 0],
         gpio := s.gpio ++ [false, true] }) := by
  rw [send_eq, if_pos hst, if_pos hsz]

/-- `send` on a ready status with sufficient write capacity: succeeds,
the buffer's bytes are written to the bus in order after the 5 header
bytes, the select line released at the end. -/
lemma send_ok (buf : List Nat) (s : BusState)
    (hst : byteAt s.responses 0 = 2)
    (hsz : ¬ decode_be (byteAt s.responses 1) (byteAt s.responses 2)
             < buf.length % 65536) :
    send buf s =
      (Except.ok (),
       { responses := s.responses.drop (5 + buf.length),
         sent := s.sent ++ [SpiWrite, 0, 0, 0, 0] ++ buf.map (· % 256),
         gpio := s.gpio ++ [false, true] }) := by
  rw [send_eq, if_pos hst, if_neg hsz]

/-! ### Wakeup machinery -/

/-- The status byte of the `(k+1)`-th handshake frame in a response
stream classifies as sleeping (0x00 or 0xFF). -/
def sleepingFrame (l : List Nat) (k : Nat) : Prop :=
  byteAt l (5 * k) = 0 ∨ byteAt l (5 * k) = 255

instance (l : List Nat) (k : Nat) : Decidable (sleepingFrame l k) := by
  unfold sleepingFrame
  infer_instance

lemma checkResult_sleeping_iff (l : List Nat) :
    checkResult l = Except.error SpiError.SpiSleeping ↔
      (byteAt l 0 = 0 ∨ byteAt l 0 = 255) := by
  simp only [checkResult]
  split_ifs with h1 h2
  · constructor
    · intro h
      exact absurd h (by simp)
    · intro h
      rcases h with h | h <;> omega
  · simp [h2]
  · simp [h2]

lemma sleepingFrame_zero_iff (l : List Nat) :
    sleepingFrame l 0 ↔ (byteAt l 0 = 0 ∨ byteAt l 0 = 255) := by
  unfold sleepingFrame
  norm_num

lemma sleepingFrame_drop5 (l : List Nat) (k : Nat) :
    sleepingFrame (l.drop 5) k ↔ sleepingFrame l (k + 1) := by
  unfold sleepingFrame
  rw [byteAt_drop]
  have h5 : 5 + 5 * k = 5 * (k + 1) := by ring
  rw [h5]

lemma wakeup_zero (s : BusState) : wakeup 0 s = check s := rfl

lemma wakeup_succ_sleeping (n : Nat) (s : BusState)
    (h : (check s).1 = Except.error SpiError.SpiSleeping) :
    wakeup (n + 1) s = wakeup n (check s).2 := by
  rcases hc : check s with ⟨r, s2⟩
  rw [hc] at h
  simp only at h
  subst h
  simp [wakeup, hc]

lemma wakeup_succ_not_sleeping (n : Nat) (s : BusState)
    (h : (check s).1 ≠ Except.error SpiError.SpiSleeping) :
    wakeup (n + 1) s = check s := by
  rcases hc : check s with ⟨r, s2⟩
  rw [hc] at h
  simp only at h
  cases r with
  | ok v => simp [wakeup, hc]
  | error e =>
    cases e with
    | SpiSleeping => exact absurd rfl h
    | SpiUnknown b => simp [wakeup, hc]
    | SpiBufferSize b => simp [wakeup, hc]

/-- If every handshake frame up to `n` reads as sleeping, `wakeup n`
performs exactly `n+1` handshakes and surfaces the final sleeping error. -/
lemma wakeup_all_sleeping (n : Nat) (s : BusState)
    (h : ∀ k, k ≤ n → sleepingFrame s.responses k) :
    (wakeup n s).1 = Except.error SpiError.SpiSleeping ∧
    (wakeup n s).2.sent.length = s.sent.length + 5 * (n + 1) := by
  induction n generalizing s with
  | zero =>
    have h0 := (sleepingFrame_zero_iff s.responses).1 (h 0 le_rfl)
    rw [wakeup_zero, check_eq]
    refine ⟨(checkResult_sleeping_iff _).2 h0, ?_⟩
    simp
  | succ n ih =>
    have h0 := (sleepingFrame_zero_iff s.responses).1 (h 0 (Nat.zero_le _))
    have hs : (check s).1 = Except.error SpiError.SpiSleeping := by
      rw [check_eq]
      exact (checkResult_sleeping_iff _).2 h0
    rw [wakeup_succ_sleeping n s hs]
    have h2 : ∀ k, k ≤ n → sleepingFrame (check s).2.responses k := by
      intro k hk
      rw [check_eq]
      exact (sleepingFrame_drop5 _ _).2 (h (k + 1) (Nat.succ_le_succ hk))
    obtain ⟨ha, hb⟩ := ih (check s).2 h2
    refine ⟨ha, ?_⟩
    rw [hb, check_eq]
    simp
    ring

/-- If the first `k` frames read as sleeping and frame `k` (with `k ≤ n`)
does not, `wakeup n` performs exactly `k+1` handshakes and returns the
`(k+1)`-th handshake's outcome unchanged. -/
lemma wakeup_first_not_sleeping (n : Nat) (s : BusState) (k : Nat)
    (hk : k ≤ n)
    (hsleep : ∀ j, j < k → sleepingFrame s.responses j)
    (hnot : ¬ sleepingFrame s.responses k) :
    (wakeup n s).1 = checkResult (s.responses.drop (5 * k)) ∧
    (wakeup n s).2.sent.length = s.sent.length + 5 * (k + 1) := by
  induction n generalizing s k with
  | zero =>
    have hk0 : k = 0 := Nat.le_zero.mp hk
    subst hk0
    rw [wakeup_zero, check_eq]
    refine ⟨by simp, by simp⟩
  | succ n ih =>
    cases k with
    | zero =>
      have hs : (check s).1 ≠ Except.error SpiError.SpiSleeping := by
        rw [check_eq]
        simp only
        intro hc
        exact hnot ((sleepingFrame_zero_iff _).2 ((checkResult_sleeping_iff _).1 hc))
      rw [wakeup_succ_not_sleeping n s hs, check_eq]
      refine ⟨by simp, by simp⟩
    | succ j =>
      have h0 := (sleepingFrame_zero_iff s.responses).1 (hsleep 0 (Nat.succ_pos j))
      have hs : (check s).1 = Except.error SpiError.SpiSleeping := by
        rw [check_eq]
        exact (checkResult_sleeping_iff _).2 h0
      rw [wakeup_succ_sleeping n s hs]
      have hsleep2 : ∀ i, i < j → sleepingFrame (check s).2.responses i := by
        intro i hi
        rw [check_eq]
        exact (sleepingFrame_drop5 _ _).2 (hsleep (i + 1) (Nat.succ_lt_succ hi))
      have hnot2 : ¬ sleepingFrame (check s).2.responses j := by
        rw [check_eq]
        intro hc
        exact hnot ((sleepingFrame_drop5 _ _).1 hc)
      obtain ⟨ha, hb⟩ := ih (check s).2 j (Nat.le_of_succ_le_succ hk) hsleep2 hnot2
      constructor
    
      · rw [ha, check_eq]
        simp only [List.drop_drop]
        have h5 : 5 + 5 * j = 5 * (j + 1) := by ring
        rw [h5]
      · rw [hb, check_eq]
        simp
        ring

lemma gpio_last (g : List Bool) : (g ++ [false, true]).getLast? = some true := by
  have h : g ++ [false, true] = (g ++ [false]) ++ [true] := by
    simp [List.append_assoc]
  rw [h]
  exact List.getLast?_concat _

/-! ### Claim theorems -/

/-- C1: `check` classifies every status byte into exactly three outcomes:
0x02 yields `Ok` with the capacity pair, 0x00 and 0xFF yield the
`SpiSleeping` error, and any other byte yields `SpiUnknown` carrying that
same byte. -/
theorem check_status_classification (s : BusState) :
    (byteAt s.responses 0 = 0x02 →
       (check s).1 = Except.ok
         (decode_be (byteAt s.responses 1) (byteAt s.responses 2),
          decode_be (byteAt s.responses 3) (byteAt s.responses 4))) ∧
    (byteAt s.responses 0 = 0x00 ∨ byteAt s.responses 0 = 0xFF →
       (check s).1 = Except.error SpiError.SpiSleeping) ∧
    (byteAt s.responses 0 ≠ 0x02 → byteAt s.responses 0 ≠ 0x00 →
     byteAt s.responses 0 ≠ 0xFF →
       (check s).1 = Except.error (SpiError.SpiUnknown (byteAt s.responses 0))) := by
  rw [check_eq]
  refine ⟨?_, ?_, ?_⟩
  · intro h
    simp [checkResult, h]
  · intro h
    rcases h with h | h <;> simp [checkResult, h]
  · intro h2 h0 hff
    simp only [checkResult]
    rw [if_neg h2, if_neg (by tauto)]

/-- C1 witness: the three outcomes at concrete status bytes 0x02, 0xFF
and 0x07. -/
theorem check_status_classification_witness :
    (check ⟨[2, 1, 0, 0, 5], [], []⟩).1 = Except.ok (256, 5) ∧
    (check ⟨[255, 1, 0, 0, 5], [], []⟩).1 = Except.error SpiError.SpiSleeping ∧
    (check ⟨[7, 1, 0, 0, 5], [], []⟩).1 = Except.error (SpiError.SpiUnknown 7) := by
  refine ⟨?_, ?_, ?_⟩
  · have h := (check_status_classification ⟨[2, 1, 0, 0, 5], [], []⟩).1 (by decide)
    rw [h]
    rfl
  · exact (check_status_classification ⟨[255, 1, 0, 0, 5], [], []⟩).2.1
      (by decide)
  · have h := (check_status_classification ⟨[7, 1, 0, 0, 5], [], []⟩).2.2
      (by decide) (by decide) (by decide)
    rw [h]
    rfl

/-- C2: if every handshake inside `wakeup n` reads as sleeping, exactly
`n` retries (`n+1` handshakes, 5 bytes each) occur and the final sleeping
error is returned; if the `(k+1)`-th handshake (`k ≤ n`) reads as
non-sleeping, no further handshakes occur and its outcome is returned
unchanged. -/
theorem wakeup_retry_policy (n : Nat) (s : BusState) :
    ((∀ k, k ≤ n → sleepingFrame s.responses k) →
       (wakeup n s).1 = Except.error SpiError.SpiSleeping ∧
       (wakeup n s).2.sent.length = s.sent.length + 5 * (n + 1)) ∧
    (∀ k, k ≤ n → (∀ j, j < k → sleepingFrame s.responses j) →
       ¬ sleepingFrame s.responses k →
       (wakeup n s).1 = checkResult (s.responses.drop (5 * k)) ∧
       (wakeup n s).2.sent.length = s.sent.length + 5 * (k + 1)) :=
  ⟨fun h => wakeup_all_sleeping n s h,
   fun k hk hs hn => wakeup_first_not_sleeping n s k hk hs hn⟩

/-- C2 witness: an always-sleeping bus exhausts one retry (two
handshakes, ten bytes), and a bus whose second frame is ready stops after
two handshakes of a budget of two. -/
theorem wakeup_retry_policy_witness :
    ((wakeup 1 ⟨[], [], []⟩).1 = Except.error SpiError.SpiSleeping ∧
     (wakeup 1 ⟨[], [], []⟩).2.sent.length = ([] : List Nat).length + 5 * 2) ∧
    ((wakeup 2 ⟨[0, 0, 0, 0, 0, 2, 1, 0, 0, 5], [], []⟩).1 =
       checkResult ([0, 0, 0, 0, 0, 2, 1, 0, 0, 5].drop (5 * 1)) ∧
     (wakeup 2 ⟨[0, 0, 0, 0, 0, 2, 1, 0, 0, 5], [], []⟩).2.sent.length =
       ([] : List Nat).length + 5 * (1 + 1)) := by
  constructor
  · exact (wakeup_retry_policy 1 ⟨[], [], []⟩).1
      (by
        intro k hk
        left
        simp [sleepingFrame, byteAt])
  · exact (wakeup_retry_policy 2 ⟨[0, 0, 0, 0, 0, 2, 1, 0, 0, 5], [], []⟩).2 1
      (by norm_num)
      (by
        intro j hj
        have hj0 : j = 0 := by omega
        subst hj0
        decide)
      (by decide)

/-- C3: `check`, `receive` and `send` all drive the select line high
before returning, on every outcome: the last recorded level on the
active/select line is always high. -/
theorem select_line_restored (s : BusState) (rbuf sbuf : List Nat) :
    (check s).2.gpio.getLast? = some true ∧
    (receive rbuf s).2.gpio.getLast? = some true ∧
    (send sbuf s).2.gpio.getLast? = some true := by
  refine ⟨?_, ?_, ?_⟩
  · rw [check_eq]
    exact gpio_last _
  · rw [receive_eq]
    split_ifs <;> exact gpio_last _
  · rw [send_eq]
    split_ifs <;> exact gpio_last _

/-- C9: the outcome of `check` is a function of the peripheral's response
bytes alone: two runs against the same response stream give identical
results. -/
theorem check_deterministic (s1 s2 : BusState) (h : s1.responses = s2.responses) :
    (check s1).1 = (check s2).1 := by
  rw [check_eq, check_eq]
  simp only
  rw [h]

/-- C9 witness: two driver states with the same response stream but
different past traces agree on the `check` outcome. -/
theorem check_deterministic_witness :
    (check ⟨[2, 1, 0, 0, 5], [9, 9], [true]⟩).1 =
      (check ⟨[2, 1, 0, 0, 5], [], [false, false]⟩).1 :=
  check_deterministic ⟨[2, 1, 0, 0, 5], [9, 9], [true]⟩
    ⟨[2, 1, 0, 0, 5], [], [false, false]⟩ rfl

/-- C4: capacity words are decoded big-endian, high byte times 256 plus
low byte, from header bytes 1–2 (write capacity) and 3–4 (read capacity),
in `check` and in the size guards of `receive` and `send`. -/
theorem capacity_decode_bigendian (s : BusState) (buf : List Nat)
    (hst : byteAt s.responses 0 = 2) :
    (∀ hi lo : Nat, hi < 256 → lo < 256 → decode_be hi lo = hi * 256 + lo) ∧
    decode_be 1 0 = 256 ∧ decode_be 0 0 = 0 ∧
    (check s).1 = Except.ok
      (byteAt s.responses 1 * 256 + byteAt s.responses 2,
       byteAt s.responses 3 * 256 + byteAt s.responses 4) ∧
    (byteAt s.responses 3 * 256 + byteAt s.responses 4 < buf.length % 65536 →
      (receive buf s).1 = Except.error (SpiError.SpiBufferSize
        (byteAt s.responses 3 * 256 + byteAt s.responses 4))) ∧
    (byteAt s.responses 1 * 256 + byteAt s.responses 2 < buf.length % 65536 →
      (send buf s).1 = Except.error (SpiError.SpiBufferSize
        (byteAt s.responses 1 * 256 + byteAt s.responses 2))) := by
  refine ⟨fun hi lo hhi hlo => decode_be_eq hi lo hlo, by decide, by decide,
    ?_, ?_, ?_⟩
  · rw [check_eq]
    simp only [checkResult, hst, if_pos]
    rw [decode_be_eq _ _ (byteAt_lt _ _), decode_be_eq _ _ (byteAt_lt _ _)]
  · intro hsz
    have hsz2 : decode_be (byteAt s.responses 3) (byteAt s.responses 4)
        < buf.length % 65536 := by
      rw [decode_be_eq _ _ (byteAt_lt _ _)]
      exact hsz
    rw [receive_size_small buf s hst hsz2]
    simp only
    rw [decode_be_eq _ _ (byteAt_lt _ _)]
  · intro hsz
    have hsz2 : decode_be (byteAt s.responses 1) (byteAt s.responses 2)
        < buf.length % 65536 := by
      rw [decode_be_eq _ _ (byteAt_lt _ _)]
      exact hsz
    rw [send_size_small buf s hst hsz2]
    simp only
    rw [decode_be_eq _ _ (byteAt_lt _ _)]

/-- C4 witness: on a ready header with capacity bytes (0x01, 0x00) and
(0x00, 0x05) the decoded pair is (256, 5). -/
theorem capacity_decode_bigendian_witness :
    (check ⟨[2, 1, 0, 0, 5], [], []⟩).1 = Except.ok (256, 5) ∧
    (receive (List.replicate 10 0) ⟨[2, 1, 0, 0, 5], [], []⟩).1 =
      Except.error (SpiError.SpiBufferSize 5) := by
  have h := capacity_decode_bigendian ⟨[2, 1, 0, 0, 5], [], []⟩
    (List.replicate 10 0) (by decide)
  refine ⟨h.2.2.2.1.trans (by rfl), ?_⟩
  have h2 := h.2.2.2.2.1 (by decide)
  exact h2.trans (by rfl)

/-- C5 counterexample: with status Ready, read capacity 5 and a buffer of
65536 bytes the capacity is smaller than the buffer length, yet `receive`
does not fail with `SpiBufferSize 5` (the `u16` cast wraps the length to
0 and the guard passes). -/
theorem receive_bufsize_truncation_cex :
    (receive (List.replicate 65536 0) ⟨[2, 0, 0, 0, 5], [], []⟩).1 ≠
      Except.error (SpiError.SpiBufferSize 5) := by
  rw [receive_ok _ _ (by decide)
    (by
      simp only [List.length_replicate, Nat.mod_self]
      exact Nat.not_lt_zero _)]
  simp only [ne_eq]
  intro h
  exact Except.noConfusion h

/-- C5 (amended): if `receive` observes status Ready and the read
capacity is below the buffer length reduced to 16 bits (`buf.len() as
u16`), it fails with `SpiBufferSize` carrying the capacity and performs
zero payload transfers: exactly the 5 header bytes are exchanged. -/
theorem receive_insufficient_capacity (buf : List Nat) (s : BusState)
    (hst : byteAt s.responses 0 = 2)
    (hsz : decode_be (byteAt s.responses 3) (byteAt s.responses 4)
             < buf.length % 65536) :
    (receive buf s).1 = Except.error (SpiError.SpiBufferSize
      (decode_be (byteAt s.responses 3) (byteAt s.responses 4))) ∧
    (receive buf s).2.sent.length = s.sent.length + 5 := by
  rw [receive_size_small buf s hst hsz]
  simp

/-- C5 witness: buffer length 10, read capacity 5: `SpiBufferSize 5` and
only the 5 header exchanges. -/
theorem receive_insufficient_capacity_witness :
    (receive (List.replicate 10 0) ⟨[2, 0, 0, 0, 5], [], []⟩).1 =
      Except.error (SpiError.SpiBufferSize 5) ∧
    (receive (List.replicate 10 0) ⟨[2, 0, 0, 0, 5], [], []⟩).2.sent.length = 5 := by
  have h := receive_insufficient_capacity (List.replicate 10 0)
    ⟨[2, 0, 0, 0, 5], [], []⟩ (by decide) (by decide)
  exact ⟨h.1.trans (by rfl), by simpa using h.2⟩

/-- C6: if `receive` observes status Ready and the read capacity is at
least the buffer length, it succeeds and the buffer is filled with
exactly `buf.length` bus bytes in transfer order: the `i`-th payload byte
exchanged lands at buffer index `i`. -/
theorem receive_ready_sufficient (buf : List Nat) (s : BusState)
    (hst : byteAt s.responses 0 = 2)
    (hcap : buf.length ≤ decode_be (byteAt s.responses 3) (byteAt s.responses 4)) :
    (receive buf s).1 =
      Except.ok ((List.range buf.length).map (fun i => byteAt s.responses (5 + i))) ∧
    (receive buf s).2.sent.length = s.sent.length + 5 + buf.length ∧
    ∀ out, (receive buf s).1 = Except.ok out →
      out.length = buf.length ∧
      ∀ i, i < buf.length → out.getD i 0 = byteAt s.responses (5 + i) := by
  have hlt : decode_be (byteAt s.responses 3) (byteAt s.responses 4) < 65536 :=
    decode_be_lt _ _ (byteAt_lt _ _) (byteAt_lt _ _)
  have hlen : buf.length % 65536 = buf.length := Nat.mod_eq_of_lt (by omega)
  have hsz : ¬ decode_be (byteAt s.responses 3) (byteAt s.responses 4)
      < buf.length % 65536 := by
    rw [hlen]
    omega
  rw [receive_ok buf s hst hsz]
  refine ⟨rfl, by simp; omega, ?_⟩
  intro out hout
  simp only [Except.ok.injEq] at hout
  subst hout
  refine ⟨by simp, ?_⟩
  intro i hi
  simp [List.getElem?_range hi]

/-- C6 witness: buffer of length 4, read capacity 4, status Ready: the
four transferred bytes 10, 20, 30, 40 populate the buffer in order. -/
theorem receive_ready_sufficient_witness :
    (receive [0, 0, 0, 0] ⟨[2, 9, 9, 0, 4, 10, 20, 30, 40], [], []⟩).1 =
      Except.ok [10, 20, 30, 40] := by
  have h := receive_ready_sufficient [0, 0, 0, 0]
    ⟨[2, 9, 9, 0, 4, 10, 20, 30, 40], [], []⟩ (by decide) (by decide)
  exact h.1.trans (by rfl)

/-- C7 counterexample: with status Ready, write capacity 5 and a 65536
byte buffer the capacity is insufficient, yet `send` succeeds instead of
failing with `SpiBufferSize` (the `u16` cast wraps the length to 0). -/
theorem send_bufsize_truncation_cex :
    (send (List.replicate 65536 7) ⟨[2, 0, 5, 0, 0], [], []⟩).1 = Except.ok () := by
  rw [send_ok _ _ (by decide)
    (by
      simp only [List.length_replicate, Nat.mod_self]
      exact Nat.not_lt_zero _)]

/-- C7 (amended): `send` succeeds and streams the whole buffer in order
when status is Ready and the write capacity is at least the buffer
length; fails with `SpiUnknown` on a non-Ready status and with
`SpiBufferSize` when the capacity is below the buffer length reduced to
16 bits (`buf.len() as u16`), in both failure cases writing no payload
bytes. -/
theorem send_decision_policy (buf : List Nat) (s : BusState)
    (hbuf : ∀ b ∈ buf, b < 256) :
    (byteAt s.responses 0 = 2 →
       buf.length ≤ decode_be (byteAt s.responses 1) (byteAt s.responses 2) →
       (send buf s).1 = Except.ok () ∧
       (send buf s).2.sent = s.sent ++ [SpiWrite, 0, 0, 0, 0] ++ buf) ∧
    (byteAt s.responses 0 ≠ 2 →
       (send buf s).1 = Except.error (SpiError.SpiUnknown (byteAt s.responses 0)) ∧
       (send buf s).2.sent.length = s.sent.length + 5) ∧
    (byteAt s.responses 0 = 2 →
       decode_be (byteAt s.responses 1) (byteAt s.responses 2)
         < buf.length % 65536 →
       (send buf s).1 = Except.error (SpiError.SpiBufferSize
         (decode_be (byteAt s.responses 1) (byteAt s.responses 2))) ∧
       (send buf s).2.sent.length = s.sent.length + 5) := by
  refine ⟨?_, ?_, ?_⟩
  · intro hst hcap
    have hlt : decode_be (byteAt s.responses 1) (byteAt s.responses 2) < 65536 :=
      decode_be_lt _ _ (byteAt_lt _ _) (byteAt_lt _ _)
    have hlen : buf.length % 65536 = buf.length := Nat.mod_eq_of_lt (by omega)
    have hsz : ¬ decode_be (byteAt s.responses 1) (byteAt s.responses 2)
        < buf.length % 65536 := by
      rw [hlen]
      omega
    rw [send_ok buf s hst hsz]
    refine ⟨rfl, ?_⟩
    have hmap : buf.map (· % 256) = buf := by
      have h1 := List.map_congr_left
        (fun b hb => Nat.mod_eq_of_lt (hbuf b hb) :
          ∀ b ∈ buf, b % 256 = id b)
      simpa using h1
    simp [hmap]
  · intro hst
    rw [send_not_ready buf s hst]
    simp
  · intro hst hsz
    rw [send_size_small buf s hst hsz]
    simp

/-- C7 witness: buffer [1, 2, 3] with write capacity 3: success, and the
bus trace ends with the opcode, the four fillers and the payload 1, 2, 3
in order. -/
theorem send_decision_policy_witness :
    (send [1, 2, 3] ⟨[2, 0, 3, 0, 0], [], []⟩).1 = Except.ok () ∧
    (send [1, 2, 3] ⟨[2, 0, 3, 0, 0], [], []⟩).2.sent =
      [10, 0, 0, 0, 0, 1, 2, 3] := by
  have h := (send_decision_policy [1, 2, 3] ⟨[2, 0, 3, 0, 0], [], []⟩
    (by decide)).1 (by decide) (by decide)
  exact ⟨h.1, h.2.trans (by rfl)⟩

/-- C8: `send` and `receive` report every non-0x02 status — including
0x00 and 0xFF, which `check` classifies as sleeping — as `SpiUnknown`
carrying that byte, and never return the `SpiSleeping` error. -/
theorem send_receive_collapse_nonready (s : BusState) (buf : List Nat) :
    (byteAt s.responses 0 ≠ 2 →
       (receive buf s).1 = Except.error (SpiError.SpiUnknown (byteAt s.responses 0)) ∧
       (send buf s).1 = Except.error (SpiError.SpiUnknown (byteAt s.responses 0))) ∧
    (receive buf s).1 ≠ Except.error SpiError.SpiSleeping ∧
    (send buf s).1 ≠ Except.error SpiError.SpiSleeping := by
  refine ⟨fun h => ⟨?_, ?_⟩, ?_, ?_⟩
  · rw [receive_not_ready buf s h]
  · rw [send_not_ready buf s h]
  · rw [receive_eq]
    split_ifs <;> simp
  · rw [send_eq]
    split_ifs <;> simp

/-- C8 witness: status byte 0x00 — sleeping for `check` — is reported by
both `receive` and `send` as `SpiUnknown 0`. -/
theorem send_receive_collapse_nonready_witness :
    (receive [9] ⟨[0, 0, 0, 0, 5], [], []⟩).1 =
      Except.error (SpiError.SpiUnknown 0) ∧
    (send [9] ⟨[0, 0, 0, 0, 5], [], []⟩).1 =
      Except.error (SpiError.SpiUnknown 0) := by
  have h := (send_receive_collapse_nonready ⟨[0, 0, 0, 0, 5], [], []⟩ [9]).1
    (by decide)
  exact ⟨h.1.trans (by rfl), h.2.trans (by rfl)⟩

/-- C10: the size guards of `send` and `receive` compare the capacity
against the buffer length truncated to 16 bits, so whenever
`buf.length % 2^16` is within capacity — in particular for a 65536-byte
buffer under any capacity — the guard passes and the full payload
transfer is attempted. -/
theorem capacity_guard_uses_u16_length (s : BusState) (buf : List Nat)
    (hst : byteAt s.responses 0 = 2) :
    (buf.length % 65536 ≤ decode_be (byteAt s.responses 1) (byteAt s.responses 2) →
       (send buf s).1 = Except.ok () ∧
       (send buf s).2.sent.length = s.sent.length + 5 + buf.length) ∧
    (buf.length % 65536 ≤ decode_be (byteAt s.responses 3) (byteAt s.responses 4) →
       (receive buf s).1 = Except.ok ((List.range buf.length).map
         (fun i => byteAt s.responses (5 + i))) ∧
       (receive buf s).2.sent.length = s.sent.length + 5 + buf.length) := by
  constructor
  · intro hcap
    have hsz : ¬ decode_be (byteAt s.responses 1) (byteAt s.responses 2)
        < buf.length % 65536 := by omega
    rw [send_ok buf s hst hsz]
    refine ⟨rfl, ?_⟩
    simp
    omega
  · intro hcap
    have hsz : ¬ decode_be (byteAt s.responses 3) (byteAt s.responses 4)
        < buf.length % 65536 := by omega
    rw [receive_ok buf s hst hsz]
    refine ⟨rfl, ?_⟩
    simp
    omega

/-- C10 witness: a buffer of length 65536 with capacity 0 passes the
truncated check in `send` and all 65536 payload bytes are written. -/
theorem capacity_guard_uses_u16_length_witness :
    (send (List.replicate 65536 0) ⟨[2, 0, 0, 0, 0], [], []⟩).1 = Except.ok () ∧
    (send (List.replicate 65536 0) ⟨[2, 0, 0, 0, 0], [], []⟩).2.sent.length =
      0 + 5 + 65536 := by
  have h := (capacity_guard_uses_u16_length ⟨[2, 0, 0, 0, 0], [], []⟩
    (List.replicate 65536 0) (by decide)).1
    (by
      simp only [List.length_replicate, Nat.mod_self]
      exact Nat.zero_le _)
  refine ⟨h.1, ?_⟩
  have h2 := h.2
  rw [List.length_replicate, List.length_nil] at h2
  exact h2
